import Mathlib

/-!
Verification of the Revision condition-manager specification against the
repository's behavior.  The repository's `src/` tree contains the unit tests
(`revision_types_test.go`); the condition-manager implementation itself
(`revision_types.go`) is not present, so the operations below are modelled from
the natural-language specification, deviating only where the unit tests force a
different behavior (each deviation is called out in the doc comment of the
definition concerned).

Conditions carry a `type`, a tri-state `status` (serialized as the strings
"True" / "False" / "Unknown"), a `reason`, a `message` and a
`lastTransitionTime`.  Timestamps are modelled as natural numbers (seconds);
every mutation takes the wall-clock instant `now` explicitly, matching the
spec's remark that timestamps depend on a wall clock supplied at call time.
-/

namespace KnativeRevision

/-- Status string for a condition that holds (corev1.ConditionTrue). -/
def conditionTrue : String := "True"

/-- Status string for a condition that fails (corev1.ConditionFalse). -/
def conditionFalse : String := "False"

/-- Status string for a condition that is undetermined (corev1.ConditionUnknown). -/
def conditionUnknown : String := "Unknown"

/-- Condition type "Ready": the derived aggregate condition. -/
def revisionConditionReady : String := "Ready"

/-- Condition type "BuildSucceeded": tracked only when a build is configured. -/
def revisionConditionBuildSucceeded : String := "BuildSucceeded"

/-- Condition type "ResourcesAvailable". -/
def revisionConditionResourcesAvailable : String := "ResourcesAvailable"

/-- Condition type "ContainerHealthy". -/
def revisionConditionContainerHealthy : String := "ContainerHealthy"

/-- Condition type "Active": the traffic-serving axis. -/
def revisionConditionActive : String := "Active"

/-- Modelled from the spec: the fixed grace-period constant
`PendingDeactivationSeconds`.  Its numeric value does not appear in `src/`
(only the relative offsets `now` and `now - (PendingDeactivationSeconds + 1)s`
are exercised by the tests); any positive value is faithful. -/
def PendingDeactivationSeconds : Nat := 120

/-- One typed, timestamped tri-state health record, mirroring the Go struct
`RevisionCondition {Type, Status, Reason, Message, LastTransitionTime}`.
`status` is a string because the Go field is a string type and the tests
construct conditions with an empty status. -/
structure RevisionCondition where
  ctype : String
  status : String
  reason : String := ""
  message : String := ""
  lastTransitionTime : Nat := 0
deriving DecidableEq, Repr

/-- The status container: an ordered list of conditions, unique by type in
every state reachable through the API (mirroring Go `RevisionStatus`). -/
structure RevisionStatus where
  conditions : List RevisionCondition := []
deriving DecidableEq, Repr

/-- The empty status of a freshly constructed Revision. -/
def emptyStatus : RevisionStatus := { conditions := [] }

/-- Exact lookup by type; `none` if never set (Go `GetCondition`). -/
def getCondition (rs : RevisionStatus) (t : String) : Option RevisionCondition :=
  rs.conditions.find? (fun c => c.ctype == t)

/-- Modelled from the spec: the internal primitive `setCondition`.  A `none`
payload is a silent no-op.  Otherwise, if an existing condition of the same
type has the same status, reason/message are updated in place and
`lastTransitionTime` is preserved; otherwise the condition is replaced (or
appended when absent) with `lastTransitionTime` refreshed to `now`. -/
def setCondition (rs : RevisionStatus) (new : Option RevisionCondition) (now : Nat) :
    RevisionStatus :=
  match new with
  | none => rs
  | some nc =>
    match getCondition rs nc.ctype with
    | some old =>
      { conditions :=
          rs.conditions.map (fun c =>
            if c.ctype == nc.ctype then
              { nc with lastTransitionTime :=
                  if old.status == nc.status then old.lastTransitionTime else now }
            else c) }
    | none =>
      { conditions := rs.conditions ++ [{ nc with lastTransitionTime := now }] }

/-- The list of condition types consulted by the readiness aggregation, in the
fixed priority order.  Modelled from the spec's priority list (BuildSucceeded,
ResourcesAvailable, ContainerHealthy) with one test-forced deviation: the
"Active" condition is also consulted (appended last), because
`TestTypicalFlowWithSuspendResume` requires `MarkInactivePending` (which only
touches "Active") to downgrade "Ready" to Unknown while both other dependents
are True.  "BuildSucceeded" is consulted only while it is tracked, i.e.
present in the condition list. -/
def dependentTypes (rs : RevisionStatus) : List String :=
  (match getCondition rs revisionConditionBuildSucceeded with
   | some _ => [revisionConditionBuildSucceeded]
   | none => []) ++
  [revisionConditionResourcesAvailable, revisionConditionContainerHealthy,
   revisionConditionActive]

/-- First condition, in priority order, whose status is "False". -/
def findFirstFalse (rs : RevisionStatus) : List String → Option RevisionCondition
  | [] => none
  | t :: rest =>
    match getCondition rs t with
    | some c => if c.status == conditionFalse then some c else findFirstFalse rs rest
    | none => findFirstFalse rs rest

/-- First consulted type, in priority order, that is absent or not "True";
returns the (reason, message) pair to copy into the aggregate (empty when the
condition is absent). -/
def findFirstNotTrue (rs : RevisionStatus) : List String → Option (String × String)
  | [] => none
  | t :: rest =>
    match getCondition rs t with
    | some c =>
      if c.status == conditionTrue then findFirstNotTrue rs rest
      else some (c.reason, c.message)
    | none => some ("", "")

/-- Modelled from the spec: the worst-of-dependents merge computing the
"Ready" condition.  Any "False" dominates, with reason/message copied from the
first False in priority order; else any absent/non-True gives "Unknown" with
reason/message copied from the first such; else "True" with reason and message
cleared. -/
def readyAggregate (rs : RevisionStatus) : RevisionCondition :=
  match findFirstFalse rs (dependentTypes rs) with
  | some c =>
    { ctype := revisionConditionReady, status := conditionFalse,
      reason := c.reason, message := c.message }
  | none =>
    match findFirstNotTrue rs (dependentTypes rs) with
    | some (r, m) =>
      { ctype := revisionConditionReady, status := conditionUnknown,
        reason := r, message := m }
    | none =>
      { ctype := revisionConditionReady, status := conditionTrue,
        reason := "", message := "" }

/-- Recompute and store the "Ready" condition (the final step of every
mutation, per the spec). -/
def recomputeReady (rs : RevisionStatus) (now : Nat) : RevisionStatus :=
  setCondition rs (some (readyAggregate rs)) now

/-- Seed a condition type to "Unknown" if absent; never disturbs an existing
condition. -/
def seedIfAbsent (rs : RevisionStatus) (t : String) (now : Nat) : RevisionStatus :=
  match getCondition rs t with
  | some _ => rs
  | none =>
    setCondition rs (some { ctype := t, status := conditionUnknown }) now

/-- Modelled from the spec: `InitializeConditions` (implementation absent from
`src/`).  Seeds each type of its fixed set to "Unknown" when absent, additively
and idempotently.  Two test-forced points: the seeded set includes "Active"
and "Ready" (both required to exist, as Unknown, right after initialization by
`TestTypicalFlowWithSuspendResume` and `TestTypicalFlowWithServiceTimeout`). -/
def initConditions (rs : RevisionStatus) (now : Nat) : RevisionStatus :=
  seedIfAbsent
    (seedIfAbsent
      (seedIfAbsent (seedIfAbsent rs revisionConditionResourcesAvailable now)
        revisionConditionContainerHealthy now)
      revisionConditionActive now)
    revisionConditionReady now

/-- Modelled from the spec: `InitializeBuildCondition` — additionally ensure
"BuildSucceeded" is tracked, seeding it to "Unknown" when absent. -/
def initBuildCondition (rs : RevisionStatus) (now : Nat) : RevisionStatus :=
  seedIfAbsent rs revisionConditionBuildSucceeded now

/-- Modelled from the spec: `MarkActive` — set "Active" to True, reason
cleared, then recompute the aggregate. -/
def markActive (rs : RevisionStatus) (now : Nat) : RevisionStatus :=
  recomputeReady
    (setCondition rs (some { ctype := revisionConditionActive, status := conditionTrue }) now)
    now

/-- Modelled from the spec: `MarkInactivePending` — set "Active" to Unknown
(entering the pending-deactivation window), then recompute the aggregate. -/
def markInactivePending (rs : RevisionStatus) (now : Nat) : RevisionStatus :=
  recomputeReady
    (setCondition rs (some { ctype := revisionConditionActive, status := conditionUnknown }) now)
    now

/-- Modelled from the spec: `MarkResourcesAvailable` — set the condition to
True, then recompute the aggregate. -/
def markResourcesAvailable (rs : RevisionStatus) (now : Nat) : RevisionStatus :=
  recomputeReady
    (setCondition rs
      (some { ctype := revisionConditionResourcesAvailable, status := conditionTrue }) now)
    now

/-- Modelled from the spec: `MarkContainerHealthy` — set the condition to
True, then recompute the aggregate. -/
def markContainerHealthy (rs : RevisionStatus) (now : Nat) : RevisionStatus :=
  recomputeReady
    (setCondition rs
      (some { ctype := revisionConditionContainerHealthy, status := conditionTrue }) now)
    now

/-- Modelled from the spec: `MarkContainerMissing(message)` — set
"ContainerHealthy" to False with reason "ContainerMissing" and the given
message, then recompute the aggregate. -/
def markContainerMissing (rs : RevisionStatus) (message : String) (now : Nat) :
    RevisionStatus :=
  recomputeReady
    (setCondition rs
      (some { ctype := revisionConditionContainerHealthy, status := conditionFalse,
              reason := "ContainerMissing", message := message }) now)
    now

/-- Modelled from the spec: `MarkServiceTimeout` — set "ResourcesAvailable" to
False with a fixed timeout reason, then recompute the aggregate. -/
def markServiceTimeout (rs : RevisionStatus) (now : Nat) : RevisionStatus :=
  recomputeReady
    (setCondition rs
      (some { ctype := revisionConditionResourcesAvailable, status := conditionFalse,
              reason := "ServiceTimeout" }) now)
    now

/-- Modelled from the spec: `MarkProgressDeadlineExceeded(message)` — set
"ResourcesAvailable" to False with a fixed deadline-exceeded reason and the
given message, then recompute the aggregate. -/
def markProgressDeadlineExceeded (rs : RevisionStatus) (message : String) (now : Nat) :
    RevisionStatus :=
  recomputeReady
    (setCondition rs
      (some { ctype := revisionConditionResourcesAvailable, status := conditionFalse,
              reason := "ProgressDeadlineExceeded", message := message }) now)
    now

/-- Modelled from the spec: `MarkDeploying(reason)` — set both
"ResourcesAvailable" and "ContainerHealthy" to Unknown with the given reason,
then recompute the aggregate. -/
def markDeploying (rs : RevisionStatus) (reason : String) (now : Nat) : RevisionStatus :=
  recomputeReady
    (setCondition
      (setCondition rs
        (some { ctype := revisionConditionResourcesAvailable, status := conditionUnknown,
                reason := reason }) now)
      (some { ctype := revisionConditionContainerHealthy, status := conditionUnknown,
              reason := reason }) now)
    now

/-- One condition of an externally observed build status (mirrors
`buildv1alpha1.BuildCondition {Type, Status, Reason, Message}`). -/
structure BuildCondition where
  ctype : String
  status : String
  reason : String := ""
  message : String := ""
deriving DecidableEq, Repr

/-- An externally observed build status (mirrors `buildv1alpha1.BuildStatus`):
just its condition list, which is all `PropagateBuildStatus` consults. -/
structure BuildStatus where
  conditions : List BuildCondition := []
deriving DecidableEq, Repr

/-- The type of the build's terminal condition (`buildv1alpha1.BuildSucceeded`,
whose string value is "Succeeded"). -/
def buildSucceededType : String := "Succeeded"

/-- Lookup of a build condition by type (mirrors `BuildStatus.GetCondition`). -/
def buildGetCondition (bs : BuildStatus) (t : String) : Option BuildCondition :=
  bs.conditions.find? (fun c => c.ctype == t)

/-- Modelled from the spec: `PropagateBuildStatus(externalBuildStatus)`.  No
"Succeeded" condition (empty status or condition missing): no change.
Unknown: local "BuildSucceeded" becomes Unknown with the external
reason/message, the reason defaulting to "Building" when absent.  True: local
"BuildSucceeded" becomes True.  False: local "BuildSucceeded" becomes False
with reason/message copied verbatim.  Each change recomputes the aggregate. -/
def propagateBuildStatus (rs : RevisionStatus) (bs : BuildStatus) (now : Nat) :
    RevisionStatus :=
  match buildGetCondition bs buildSucceededType with
  | none => rs
  | some bc =>
    if bc.status == conditionUnknown then
      let reason := if bc.reason == "" then "Building" else bc.reason
      recomputeReady
        (setCondition rs
          (some { ctype := revisionConditionBuildSucceeded, status := conditionUnknown,
                  reason := reason, message := bc.message }) now)
        now
    else if bc.status == conditionTrue then
      recomputeReady
        (setCondition rs
          (some { ctype := revisionConditionBuildSucceeded, status := conditionTrue }) now)
        now
    else if bc.status == conditionFalse then
      recomputeReady
        (setCondition rs
          (some { ctype := revisionConditionBuildSucceeded, status := conditionFalse,
                  reason := bc.reason, message := bc.message }) now)
        now
    else rs

/-- Modelled from the spec: `IsReady()` — true iff the "Ready" condition
exists and its status is "True". -/
def isReady (rs : RevisionStatus) : Bool :=
  match getCondition rs revisionConditionReady with
  | some c => c.status == conditionTrue
  | none => false

/-- Modelled from the spec: `IsActive()` — true if the "Active" condition is
absent or present with a status other than an explicit "False" or "Unknown";
only those two statuses make it false. -/
def isActive (rs : RevisionStatus) : Bool :=
  match getCondition rs revisionConditionActive with
  | some c => !(c.status == conditionFalse || c.status == conditionUnknown)
  | none => true

/-- Whether a condition of type `t` exists with exactly status `s`. -/
def condHasStatus (rs : RevisionStatus) (t s : String) : Bool :=
  match getCondition rs t with
  | some c => c.status == s
  | none => false

/-- Modelled from the spec: `IsRoutable()` — true iff "Ready" is True, or
"Ready" is False while "Active" is also False. -/
def isRoutable (rs : RevisionStatus) : Bool :=
  isReady rs ||
    (condHasStatus rs revisionConditionReady conditionFalse &&
     condHasStatus rs revisionConditionActive conditionFalse)

/-- Modelled from the spec: `IsSafeToTearDownResources(now)` — false if
"Active" is absent or True.  One test-forced deviation from the spec's words:
per `TestIsSafeToTearDownResources`, an "Active" condition with status False
makes teardown immediately safe (the test expects `true` with
`lastTransitionTime = now`); the grace-period comparison (elapsed time at
least `PendingDeactivationSeconds`) applies to the Unknown
(pending-deactivation) status. -/
def isSafeToTearDownResources (rs : RevisionStatus) (now : Nat) : Bool :=
  match getCondition rs revisionConditionActive with
  | none => false
  | some c =>
    if c.status == conditionFalse then true
    else if c.status == conditionUnknown then
      decide (c.lastTransitionTime + PendingDeactivationSeconds ≤ now)
    else false

/-- Modelled from the spec: the revision's spec payload, reduced to the one
field the generation accessors touch (`Spec.Generation`, an int64 — modelled
as an unbounded integer since the accessors store and read it verbatim). -/
structure RevisionSpec where
  generation : Int := 0
deriving DecidableEq, Repr

/-- Modelled from the spec: the Revision object, reduced to the fields the
claims touch. -/
structure Revision where
  spec : RevisionSpec := {}
  status : RevisionStatus := {}
deriving DecidableEq, Repr

/-- Modelled from the spec: `GetGeneration` — the generation accessors are
absent from `src/` and from the spec text; modelled as the plain field getter
consistent with `TestGeneration`. -/
def getGeneration (r : Revision) : Int := r.spec.generation

/-- Modelled from the spec: `SetGeneration` — plain field setter consistent
with `TestGeneration`. -/
def setGeneration (r : Revision) (g : Int) : Revision :=
  { r with spec := { r.spec with generation := g } }

/-- The non-initialization mutations of the condition manager, each carrying
the wall-clock instant of the call. -/
inductive Mutation where
  | mActive (now : Nat)
  | mInactivePending (now : Nat)
  | mResourcesAvailable (now : Nat)
  | mContainerHealthy (now : Nat)
  | mContainerMissing (message : String) (now : Nat)
  | mServiceTimeout (now : Nat)
  | mProgressDeadlineExceeded (message : String) (now : Nat)
  | mDeploying (reason : String) (now : Nat)
  | mPropagateBuildStatus (bs : BuildStatus) (now : Nat)
deriving Repr

/-- Apply one mutation. -/
def applyMutation (rs : RevisionStatus) : Mutation → RevisionStatus
  | .mActive now => markActive rs now
  | .mInactivePending now => markInactivePending rs now
  | .mResourcesAvailable now => markResourcesAvailable rs now
  | .mContainerHealthy now => markContainerHealthy rs now
  | .mContainerMissing message now => markContainerMissing rs message now
  | .mServiceTimeout now => markServiceTimeout rs now
  | .mProgressDeadlineExceeded message now => markProgressDeadlineExceeded rs message now
  | .mDeploying reason now => markDeploying rs reason now
  | .mPropagateBuildStatus bs now => propagateBuildStatus rs bs now

/-- Apply a sequence of mutations left to right. -/
def applyMutations (rs : RevisionStatus) : List Mutation → RevisionStatus
  | [] => rs
  | m :: ms => applyMutations (applyMutation rs m) ms

/-- The state of a fresh Revision after `InitializeConditions` (and, when
`withBuild` is set, `InitializeBuildCondition`) at instant `now`. -/
def initialState (withBuild : Bool) (now : Nat) : RevisionStatus :=
  if withBuild then initBuildCondition (initConditions emptyStatus now) now
  else initConditions emptyStatus now

/-- The condition of type `t` exists and holds (status "True"). -/
def condIsTrue (rs : RevisionStatus) (t : String) : Prop :=
  ∃ c, getCondition rs t = some c ∧ c.status = conditionTrue

/-- Types are pairwise distinct in the condition list (the ConditionSet
uniqueness invariant). -/
def uniqueTypes (rs : RevisionStatus) : Prop :=
  rs.conditions.Pairwise (fun a b => a.ctype ≠ b.ctype)

/-- The stored "Ready" condition agrees with the aggregate recomputed from
scratch on status, reason and message (the ConditionSet freshness
invariant). -/
def readyConsistent (rs : RevisionStatus) : Prop :=
  ∃ c, getCondition rs revisionConditionReady = some c ∧
    c.status = (readyAggregate rs).status ∧
    c.reason = (readyAggregate rs).reason ∧
    c.message = (readyAggregate rs).message

/-- Every consulted dependent type is present with status "True". -/
def allDepsTrue (rs : RevisionStatus) : Prop :=
  ∀ t ∈ dependentTypes rs, ∃ c, getCondition rs t = some c ∧ c.status = conditionTrue

lemma find?_append {α : Type} (l1 l2 : List α) (p : α → Bool) :
    (l1 ++ l2).find? p =
      (match l1.find? p with
       | some c => some c
       | none => l2.find? p) := by
  induction l1 with
  | nil => simp
  | cons a t ih =>
    cases h : p a <;> simp [List.find?, h, ih]

lemma find?_map_update (l : List RevisionCondition) (t : String) (nc' : RevisionCondition)
    (h : nc'.ctype = t) :
    (l.map (fun c => if c.ctype == t then nc' else c)).find? (fun c => c.ctype == t) =
      (match l.find? (fun c => c.ctype == t) with
       | some _ => some nc'
       | none => none) := by
  rw [List.find?_map]
  have hpred : ((fun c => c.ctype == t) ∘ (fun c => if c.ctype == t then nc' else c)) =
      (fun c => c.ctype == t) := by
    funext c
    by_cases hc : (c.ctype == t) = true
    · simp [Function.comp, hc, beq_iff_eq, h]
    · simp [Function.comp, hc]
  rw [hpred]
  cases hf : l.find? (fun c => c.ctype == t) with
  | none => simp
  | some c =>
    have hct : c.ctype = t := by simpa using List.find?_some hf
    simp [hct]

lemma find?_map_update_other (l : List RevisionCondition) (s t : String)
    (nc' : RevisionCondition) (h1 : nc'.ctype = s) (h2 : t ≠ s) :
    (l.map (fun c => if c.ctype == s then nc' else c)).find? (fun c => c.ctype == t) =
      l.find? (fun c => c.ctype == t) := by
  rw [List.find?_map]
  have hpred : ((fun c => c.ctype == t) ∘ (fun c => if c.ctype == s then nc' else c)) =
      (fun c => c.ctype == t) := by
    funext c
    by_cases hc : (c.ctype == s) = true
    · have hcs : c.ctype = s := by simpa [beq_iff_eq] using hc
      have hct : (c.ctype == t) = false := by
        simp [beq_iff_eq, hcs]
        exact fun hts => h2 hts.symm
      have hnt : (nc'.ctype == t) = false := by
        simp [beq_iff_eq, h1]
        exact fun hts => h2 hts.symm
      simp [Function.comp, hc, hct, hnt]
    · simp [Function.comp, hc]
  rw [hpred]
  cases hf : l.find? (fun c => c.ctype == t) with
  | none => simp
  | some c =>
    have hct : c.ctype = t := by simpa using List.find?_some hf
    simp [hct, beq_iff_eq, h2]

lemma getCondition_setCondition_self (rs : RevisionStatus) (nc : RevisionCondition)
    (now : Nat) :
    getCondition (setCondition rs (some nc) now) nc.ctype =
      some { nc with lastTransitionTime :=
        (match getCondition rs nc.ctype with
         | some old => if old.status == nc.status then old.lastTransitionTime else now
         | none => now) } := by
  cases h : getCondition rs nc.ctype with
  | none =>
    have hfind : rs.conditions.find? (fun c => c.ctype == nc.ctype) = none := h
    unfold setCondition
    simp only [h]
    simp only [getCondition]
    rw [find?_append, hfind]
    simp [List.find?]
  | some old =>
    have hfind : rs.conditions.find? (fun c => c.ctype == nc.ctype) = some old := h
    unfold setCondition
    simp only [h]
    simp only [getCondition]
    rw [find?_map_update rs.conditions nc.ctype
      { nc with lastTransitionTime :=
          if old.status == nc.status then old.lastTransitionTime else now } rfl, hfind]

lemma getCondition_setCondition_other (rs : RevisionStatus) (nc : RevisionCondition)
    (now : Nat) (t : String) (h : t ≠ nc.ctype) :
    getCondition (setCondition rs (some nc) now) t = getCondition rs t := by
  cases hg : getCondition rs nc.ctype with
  | none =>
    unfold setCondition
    simp only [hg]
    simp only [getCondition]
    rw [find?_append]
    cases hf : rs.conditions.find? (fun c => c.ctype == t) with
    | some c => simp [hf]
    | none =>
      have hx : (({ nc with lastTransitionTime := now } : RevisionCondition).ctype == t) =
          false := by
        simp [beq_iff_eq]
        exact fun hts => h hts.symm
      simp [hf, List.find?, hx]
  | some old =>
    unfold setCondition
    simp only [hg]
    simp only [getCondition]
    exact find?_map_update_other rs.conditions nc.ctype t _ rfl h

lemma getCondition_seedIfAbsent_of_some (rs : RevisionStatus) (s : String) (now : Nat)
    {t : String} {c : RevisionCondition} (h : getCondition rs t = some c) :
    getCondition (seedIfAbsent rs s now) t = some c := by
  cases hs : getCondition rs s with
  | some _ => simp [seedIfAbsent, hs, h]
  | none =>
    have hts : t ≠ s := by
      intro he
      rw [he, hs] at h
      exact Option.noConfusion h
    simp only [seedIfAbsent, hs]
    rw [getCondition_setCondition_other _ _ _ _ hts]
    exact h

lemma getCondition_seedIfAbsent_none (rs : RevisionStatus) (s : String) (now : Nat)
    (h : getCondition rs s = none) :
    getCondition (seedIfAbsent rs s now) s =
      some { ctype := s, status := conditionUnknown, reason := "", message := "",
             lastTransitionTime := now } := by
  simp only [seedIfAbsent, h]
  have := getCondition_setCondition_self rs
    { ctype := s, status := conditionUnknown } now
  rw [h] at this
  exact this

lemma getCondition_seedIfAbsent_other (rs : RevisionStatus) (s : String) (now : Nat)
    {t : String} (h : t ≠ s) :
    getCondition (seedIfAbsent rs s now) t = getCondition rs t := by
  cases hs : getCondition rs s with
  | some _ => simp [seedIfAbsent, hs]
  | none =>
    simp only [seedIfAbsent, hs]
    exact getCondition_setCondition_other _ _ _ _ h

lemma mem_dependentTypes (rs : RevisionStatus) (t : String) (h : t ∈ dependentTypes rs) :
    t = revisionConditionBuildSucceeded ∨ t = revisionConditionResourcesAvailable ∨
    t = revisionConditionContainerHealthy ∨ t = revisionConditionActive := by
  unfold dependentTypes at h
  cases hb : getCondition rs revisionConditionBuildSucceeded with
  | some c =>
    rw [hb] at h
    simp at h
    tauto
  | none =>
    rw [hb] at h
    simp at h
    tauto

lemma findFirstFalse_congr (rs1 rs2 : RevisionStatus) (ts : List String)
    (h : ∀ t ∈ ts, getCondition rs1 t = getCondition rs2 t) :
    findFirstFalse rs1 ts = findFirstFalse rs2 ts := by
  induction ts with
  | nil => rfl
  | cons t rest ih =>
    have ht : getCondition rs1 t = getCondition rs2 t := h t (by simp)
    have hrest : ∀ t' ∈ rest, getCondition rs1 t' = getCondition rs2 t' :=
      fun t' ht' => h t' (by simp [ht'])
    unfold findFirstFalse
    rw [ht]
    cases hgc : getCondition rs2 t with
    | none => exact ih hrest
    | some c =>
      by_cases hc : (c.status == conditionFalse) = true
      · simp [hc]
      · simp [hc]
        exact ih hrest

lemma findFirstNotTrue_congr (rs1 rs2 : RevisionStatus) (ts : List String)
    (h : ∀ t ∈ ts, getCondition rs1 t = getCondition rs2 t) :
    findFirstNotTrue rs1 ts = findFirstNotTrue rs2 ts := by
  induction ts with
  | nil => rfl
  | cons t rest ih =>
    have ht : getCondition rs1 t = getCondition rs2 t := h t (by simp)
    have hrest : ∀ t' ∈ rest, getCondition rs1 t' = getCondition rs2 t' :=
      fun t' ht' => h t' (by simp [ht'])
    unfold findFirstNotTrue
    rw [ht]
    cases hgc : getCondition rs2 t with
    | none => rfl
    | some c =>
      by_cases hc : (c.status == conditionTrue) = true
      · simp [hc]
        exact ih hrest
      · simp [hc]

lemma readyAggregate_congr (rs1 rs2 : RevisionStatus)
    (h : ∀ t, t ≠ revisionConditionReady → getCondition rs1 t = getCondition rs2 t) :
    readyAggregate rs1 = readyAggregate rs2 := by
  have hdep : dependentTypes rs1 = dependentTypes rs2 := by
    unfold dependentTypes
    rw [h revisionConditionBuildSucceeded (by decide)]
  have hall : ∀ t ∈ dependentTypes rs2, getCondition rs1 t = getCondition rs2 t := by
    intro t ht
    rcases mem_dependentTypes rs2 t ht with h1 | h1 | h1 | h1 <;> subst h1 <;>
      exact h _ (by decide)
  unfold readyAggregate
  rw [hdep, findFirstFalse_congr rs1 rs2 _ hall, findFirstNotTrue_congr rs1 rs2 _ hall]

lemma readyAggregate_ctype (rs : RevisionStatus) :
    (readyAggregate rs).ctype = revisionConditionReady := by
  unfold readyAggregate
  cases hf : findFirstFalse rs (dependentTypes rs) with
  | some c => rfl
  | none =>
    cases hn : findFirstNotTrue rs (dependentTypes rs) with
    | some p => cases p; rfl
    | none => rfl

lemma getCondition_recomputeReady_other (rs : RevisionStatus) (now : Nat) (t : String)
    (h : t ≠ revisionConditionReady) :
    getCondition (recomputeReady rs now) t = getCondition rs t := by
  unfold recomputeReady
  apply getCondition_setCondition_other
  rw [readyAggregate_ctype]
  exact h

lemma readyConsistent_recomputeReady (rs : RevisionStatus) (now : Nat) :
    readyConsistent (recomputeReady rs now) := by
  have hagg : readyAggregate (recomputeReady rs now) = readyAggregate rs :=
    readyAggregate_congr _ _ (fun t ht => getCondition_recomputeReady_other rs now t ht)
  have hget := getCondition_setCondition_self rs (readyAggregate rs) now
  rw [readyAggregate_ctype] at hget
  unfold readyConsistent
  rw [hagg]
  exact ⟨_, hget, rfl, rfl, rfl⟩

lemma readyConsistent_applyMutation (rs : RevisionStatus) (m : Mutation)
    (h : readyConsistent rs) : readyConsistent (applyMutation rs m) := by
  cases m with
  | mActive now => exact readyConsistent_recomputeReady _ _
  | mInactivePending now => exact readyConsistent_recomputeReady _ _
  | mResourcesAvailable now => exact readyConsistent_recomputeReady _ _
  | mContainerHealthy now => exact readyConsistent_recomputeReady _ _
  | mContainerMissing message now => exact readyConsistent_recomputeReady _ _
  | mServiceTimeout now => exact readyConsistent_recomputeReady _ _
  | mProgressDeadlineExceeded message now => exact readyConsistent_recomputeReady _ _
  | mDeploying reason now => exact readyConsistent_recomputeReady _ _
  | mPropagateBuildStatus bs now =>
    show readyConsistent (propagateBuildStatus rs bs now)
    unfold propagateBuildStatus
    split
    · exact h
    · split
      · exact readyConsistent_recomputeReady _ _
      · split
        · exact readyConsistent_recomputeReady _ _
        · split
          · exact readyConsistent_recomputeReady _ _
          · exact h

lemma readyConsistent_applyMutations (rs : RevisionStatus) (ms : List Mutation)
    (h : readyConsistent rs) : readyConsistent (applyMutations rs ms) := by
  induction ms generalizing rs with
  | nil => exact h
  | cons m rest ih => exact ih _ (readyConsistent_applyMutation _ _ h)

set_option maxHeartbeats 1000000 in
lemma readyConsistent_initialState (b : Bool) (n : Nat) :
    readyConsistent (initialState b n) := by
  cases b with
  | false =>
    exact ⟨{ ctype := revisionConditionReady, status := conditionUnknown,
             reason := "", message := "", lastTransitionTime := n }, rfl, rfl, rfl, rfl⟩
  | true =>
    exact ⟨{ ctype := revisionConditionReady, status := conditionUnknown,
             reason := "", message := "", lastTransitionTime := n }, rfl, rfl, rfl, rfl⟩

lemma findFirstNotTrue_eq_none_iff (rs : RevisionStatus) (ts : List String) :
    findFirstNotTrue rs ts = none ↔
      ∀ t ∈ ts, ∃ c, getCondition rs t = some c ∧ c.status = conditionTrue := by
  induction ts with
  | nil => simp [findFirstNotTrue]
  | cons t rest ih =>
    unfold findFirstNotTrue
    cases hgc : getCondition rs t with
    | none =>
      constructor
      · intro hcontra
        exact Option.noConfusion hcontra
      · intro hall
        obtain ⟨c, hc1, _⟩ := hall t (by simp)
        rw [hgc] at hc1
        exact Option.noConfusion hc1
    | some c =>
      show (if (c.status == conditionTrue) = true then findFirstNotTrue rs rest
            else some (c.reason, c.message)) = none ↔ _
      by_cases hc : (c.status == conditionTrue) = true
      · have hcs : c.status = conditionTrue := by simpa using hc
        rw [if_pos hc, ih]
        constructor
        · intro hall t' ht'
          rcases List.mem_cons.mp ht' with h1 | h1
          · subst h1
            exact ⟨c, hgc, hcs⟩
          · exact hall t' h1
        · intro hall t' ht'
          exact hall t' (List.mem_cons_of_mem _ ht')
      · have hcs : c.status ≠ conditionTrue := by simpa using hc
        rw [if_neg hc]
        constructor
        · intro hcontra
          exact Option.noConfusion hcontra
        · intro hall
          obtain ⟨c', hc1, hs1⟩ := hall t (by simp)
          rw [hgc] at hc1
          injection hc1 with hcc
          refine absurd ?_ hcs
          rw [hcc]
          exact hs1

lemma findFirstFalse_eq_none_of_allTrue (rs : RevisionStatus) (ts : List String)
    (h : ∀ t ∈ ts, ∃ c, getCondition rs t = some c ∧ c.status = conditionTrue) :
    findFirstFalse rs ts = none := by
  induction ts with
  | nil => rfl
  | cons t rest ih =>
    obtain ⟨c, hc1, hc2⟩ := h t (by simp)
    unfold findFirstFalse
    rw [hc1]
    have hcf : (c.status == conditionFalse) = false := by
      rw [hc2]
      decide
    show (if (c.status == conditionFalse) = true then some c
          else findFirstFalse rs rest) = none
    rw [hcf]
    simp only [Bool.false_eq_true, if_false]
    exact ih (fun t' ht' => h t' (List.mem_cons_of_mem _ ht'))

lemma readyAggregate_status_true_iff (rs : RevisionStatus) :
    (readyAggregate rs).status = conditionTrue ↔ allDepsTrue rs := by
  unfold readyAggregate allDepsTrue
  cases hf : findFirstFalse rs (dependentTypes rs) with
  | some c =>
    constructor
    · intro hcontra
      have hfx : conditionFalse = conditionTrue := hcontra
      exact absurd hfx (by decide)
    · intro hall
      have hnone := findFirstFalse_eq_none_of_allTrue rs _ hall
      rw [hf] at hnone
      exact Option.noConfusion hnone
  | none =>
    cases hn : findFirstNotTrue rs (dependentTypes rs) with
    | some p =>
      obtain ⟨r, m⟩ := p
      constructor
      · intro hcontra
        have hfx : conditionUnknown = conditionTrue := hcontra
        exact absurd hfx (by decide)
      · intro hall
        have hnone := (findFirstNotTrue_eq_none_iff rs _).mpr hall
        rw [hn] at hnone
        exact Option.noConfusion hnone
    | none =>
      constructor
      · intro _
        exact (findFirstNotTrue_eq_none_iff rs _).mp hn
      · intro _
        rfl

lemma allDepsTrue_iff (rs : RevisionStatus) :
    allDepsTrue rs ↔
      (condIsTrue rs revisionConditionResourcesAvailable ∧
       condIsTrue rs revisionConditionContainerHealthy ∧
       condIsTrue rs revisionConditionActive ∧
       ∀ c, getCondition rs revisionConditionBuildSucceeded = some c →
         c.status = conditionTrue) := by
  unfold allDepsTrue dependentTypes condIsTrue
  cases hb : getCondition rs revisionConditionBuildSucceeded with
  | none =>
    simp [hb]
  | some c0 =>
    simp [hb]
    tauto

lemma isReady_eq_true_iff (rs : RevisionStatus) :
    isReady rs = true ↔
      ∃ c, getCondition rs revisionConditionReady = some c ∧
        c.status = conditionTrue := by
  unfold isReady
  cases h : getCondition rs revisionConditionReady with
  | none => simp
  | some c => simp [beq_iff_eq]

/-- C1 (amended): for every sequence of mutations applied after
`InitializeConditions` (and optionally `InitializeBuildCondition`), `IsReady()`
returns true iff the "Ready" condition exists with status "True", which holds
exactly when every tracked dependent condition ("ResourcesAvailable",
"ContainerHealthy", and "BuildSucceeded" whenever it is tracked) AND the
"Active" condition have status "True".  The unamended claim omits "Active";
the counterexample below shows it is required. -/
theorem isReady_iff_dependents_and_active (b : Bool) (n : Nat) (ms : List Mutation) :
    (isReady (applyMutations (initialState b n) ms) = true ↔
      ∃ c, getCondition (applyMutations (initialState b n) ms) revisionConditionReady =
          some c ∧ c.status = conditionTrue) ∧
    (isReady (applyMutations (initialState b n) ms) = true ↔
      (condIsTrue (applyMutations (initialState b n) ms)
          revisionConditionResourcesAvailable ∧
       condIsTrue (applyMutations (initialState b n) ms)
          revisionConditionContainerHealthy ∧
       condIsTrue (applyMutations (initialState b n) ms) revisionConditionActive ∧
       ∀ c, getCondition (applyMutations (initialState b n) ms)
           revisionConditionBuildSucceeded = some c → c.status = conditionTrue)) := by
  have hcons := readyConsistent_applyMutations (initialState b n) ms
    (readyConsistent_initialState b n)
  obtain ⟨c, hc, hs, _, _⟩ := hcons
  have h2 : isReady (applyMutations (initialState b n) ms) = (c.status == conditionTrue) := by
    unfold isReady
    rw [hc]
  refine ⟨isReady_eq_true_iff _, ?_⟩
  rw [h2]
  simp only [beq_iff_eq]
  rw [hs]
  exact (readyAggregate_status_true_iff _).trans (allDepsTrue_iff _)

/-- C2 (amended): after every mutation sequence from an initialized status, the
stored "Ready" condition agrees on status, reason and message with the
worst-of merge `readyAggregate` recomputed from scratch over the consulted
conditions ("BuildSucceeded" while tracked, "ResourcesAvailable",
"ContainerHealthy", and — deviating from the unamended claim — "Active",
consulted last in priority order). -/
theorem ready_condition_matches_aggregate (b : Bool) (n : Nat) (ms : List Mutation) :
    ∃ c, getCondition (applyMutations (initialState b n) ms) revisionConditionReady =
        some c ∧
      c.status = (readyAggregate (applyMutations (initialState b n) ms)).status ∧
      c.reason = (readyAggregate (applyMutations (initialState b n) ms)).reason ∧
      c.message = (readyAggregate (applyMutations (initialState b n) ms)).message :=
  readyConsistent_applyMutations (initialState b n) ms (readyConsistent_initialState b n)

/-- The Reserve-state scenario of `TestTypicalFlowWithSuspendResume`: initialize,
mark both dependents healthy/available, mark active, then mark
inactive-pending. -/
def reserveState : RevisionStatus :=
  applyMutations (initialState false 0)
    [.mContainerHealthy 1, .mResourcesAvailable 2, .mActive 3, .mInactivePending 4]

set_option maxHeartbeats 4000000 in
lemma reserveState_eq :
    reserveState =
      { conditions :=
          [{ ctype := revisionConditionResourcesAvailable, status := conditionTrue,
             reason := "", message := "", lastTransitionTime := 2 },
           { ctype := revisionConditionContainerHealthy, status := conditionTrue,
             reason := "", message := "", lastTransitionTime := 1 },
           { ctype := revisionConditionActive, status := conditionUnknown,
             reason := "", message := "", lastTransitionTime := 4 },
           { ctype := revisionConditionReady, status := conditionUnknown,
             reason := "", message := "", lastTransitionTime := 4 }] } := rfl

/-- C1 counterexample: in the Reserve state every tracked dependent condition
("ResourcesAvailable" and "ContainerHealthy"; "BuildSucceeded" is not tracked)
has status "True", yet `IsReady()` returns false — refuting the claimed
equivalence between readiness and the tracked dependents alone. -/
theorem isReady_false_in_reserve_state :
    condIsTrue reserveState revisionConditionResourcesAvailable ∧
    condIsTrue reserveState revisionConditionContainerHealthy ∧
    getCondition reserveState revisionConditionBuildSucceeded = none ∧
    isReady reserveState = false := by
  rw [condIsTrue, condIsTrue, reserveState_eq]
  exact ⟨⟨_, rfl, rfl⟩, ⟨_, rfl, rfl⟩, rfl, rfl⟩

/-- C2 counterexample: in the Reserve state both tracked dependents are "True"
and "BuildSucceeded" is untracked, so the claimed Active-blind aggregation
would make "Ready" True — but the stored "Ready" condition is "Unknown". -/
theorem ready_unknown_despite_dependents_true :
    (getCondition reserveState revisionConditionReady).map RevisionCondition.status =
        some conditionUnknown ∧
    (getCondition reserveState
        revisionConditionResourcesAvailable).map RevisionCondition.status =
        some conditionTrue ∧
    (getCondition reserveState
        revisionConditionContainerHealthy).map RevisionCondition.status =
        some conditionTrue ∧
    getCondition reserveState revisionConditionBuildSucceeded = none := by
  rw [reserveState_eq]
  exact ⟨rfl, rfl, rfl, rfl⟩

/-- C3: the set-condition primitive refreshes `lastTransitionTime` to the
call's `now` exactly when the status changes (or the condition is new); setting
the same status preserves the old `lastTransitionTime` while reason and
message are replaced by the new values. -/
theorem setCondition_lastTransitionTime (rs : RevisionStatus) (nc : RevisionCondition)
    (now : Nat) :
    getCondition (setCondition rs (some nc) now) nc.ctype =
      some { nc with lastTransitionTime :=
        (match getCondition rs nc.ctype with
         | some old => if old.status == nc.status then old.lastTransitionTime else now
         | none => now) } :=
  getCondition_setCondition_self rs nc now

/-- C9: calling the set-condition primitive with an empty (`none`) condition is
a silent no-op: the status, and with it the whole condition list, is returned
unchanged. -/
theorem setCondition_none_noop (rs : RevisionStatus) (now : Nat) :
    setCondition rs none now = rs := rfl

/-- C10: on a freshly constructed Revision `GetGeneration` returns 0, and
`GetGeneration` after `SetGeneration n` returns `n` for every integer `n`. -/
theorem generation_get_set :
    getGeneration {} = 0 ∧
    ∀ (r : Revision) (g : Int), getGeneration (setGeneration r g) = g :=
  ⟨rfl, fun _ _ => rfl⟩

/-- The status used for the C4 counterexample: "Active" is False with
`lastTransitionTime` equal to the query instant. -/
def activeFalseNowState : RevisionStatus :=
  { conditions := [{ ctype := revisionConditionActive, status := conditionFalse,
                     reason := "", message := "", lastTransitionTime := 100 }] }

/-- C4 counterexample: with "Active" False and `lastTransitionTime = now`,
`IsSafeToTearDownResources` returns true — the claim says it returns false
until the grace period has elapsed, but `TestIsSafeToTearDownResources`
requires true here (the grace period applies only to the Unknown status). -/
theorem tearDown_true_with_active_false_at_now :
    isSafeToTearDownResources activeFalseNowState 100 = true := rfl

/-- C4 (amended): `IsSafeToTearDownResources(now)` returns true iff the
"Active" condition is present and either has status "False" (immediately safe),
or has status "Unknown" with at least `PendingDeactivationSeconds` elapsed
since its `lastTransitionTime`.  Absent or "True" "Active" gives false. -/
theorem isSafeToTearDownResources_characterization (rs : RevisionStatus) (now : Nat) :
    isSafeToTearDownResources rs now = true ↔
      ∃ c, getCondition rs revisionConditionActive = some c ∧
        (c.status = conditionFalse ∨
         (c.status = conditionUnknown ∧
          c.lastTransitionTime + PendingDeactivationSeconds ≤ now)) := by
  unfold isSafeToTearDownResources
  cases h : getCondition rs revisionConditionActive with
  | none => simp
  | some c =>
    show (if (c.status == conditionFalse) = true then true
          else if (c.status == conditionUnknown) = true then
            decide (c.lastTransitionTime + PendingDeactivationSeconds ≤ now)
          else false) = true ↔ _
    by_cases h1 : (c.status == conditionFalse) = true
    · have hc1 : c.status = conditionFalse := by simpa using h1
      simp [h1, hc1]
    · have hc1 : c.status ≠ conditionFalse := by simpa using h1
      by_cases h2 : (c.status == conditionUnknown) = true
      · have hc2 : c.status = conditionUnknown := by simpa using h2
        simp [h1, h2, hc1, hc2]
      · have hc2 : c.status ≠ conditionUnknown := by simpa using h2
        simp [h1, h2, hc1, hc2]

lemma find?_ctype_eq_some_iff (l : List RevisionCondition)
    (h : l.Pairwise (fun a b => a.ctype ≠ b.ctype)) (t : String) (c : RevisionCondition) :
    l.find? (fun x => x.ctype == t) = some c ↔ (c ∈ l ∧ c.ctype = t) := by
  induction l with
  | nil => simp
  | cons a rest ih =>
    rw [List.pairwise_cons] at h
    obtain ⟨ha, hrest⟩ := h
    by_cases hat : (a.ctype == t) = true
    · have hat' : a.ctype = t := by simpa using hat
      have hfind : List.find? (fun x => x.ctype == t) (a :: rest) = some a := by
        simp [List.find?_cons, hat]
      rw [hfind]
      constructor
      · intro he
        injection he with he
        subst he
        exact ⟨List.mem_cons_self _ _, hat'⟩
      · rintro ⟨hmem, hct⟩
        rcases List.mem_cons.mp hmem with h1 | h1
        · subst h1
          rfl
        · exact absurd (hat'.trans hct.symm) (ha c h1)
    · have hat' : a.ctype ≠ t := by simpa using hat
      have hfind : List.find? (fun x => x.ctype == t) (a :: rest) =
          List.find? (fun x => x.ctype == t) rest := by
        simp [List.find?_cons, hat]
      rw [hfind, ih hrest]
      constructor
      · rintro ⟨hmem, hct⟩
        exact ⟨List.mem_cons_of_mem _ hmem, hct⟩
      · rintro ⟨hmem, hct⟩
        rcases List.mem_cons.mp hmem with h1 | h1
        · subst h1
          exact absurd hct hat'
        · exact ⟨h1, hct⟩

lemma getCondition_eq_some_iff (rs : RevisionStatus) (h : uniqueTypes rs)
    (t : String) (c : RevisionCondition) :
    getCondition rs t = some c ↔ (c ∈ rs.conditions ∧ c.ctype = t) :=
  find?_ctype_eq_some_iff rs.conditions h t c

lemma exists_cond_iff (rs : RevisionStatus) (h : uniqueTypes rs) (t s : String) :
    (∃ c, c ∈ rs.conditions ∧ c.ctype = t ∧ c.status = s) ↔
      condHasStatus rs t s = true := by
  unfold condHasStatus
  cases hg : getCondition rs t with
  | none =>
    constructor
    · rintro ⟨c, hmem, hct, _⟩
      have hsome := (getCondition_eq_some_iff rs h t c).mpr ⟨hmem, hct⟩
      rw [hg] at hsome
      exact Option.noConfusion hsome
    · intro hfalse
      have hfx : false = true := hfalse
      exact absurd hfx (by decide)
  | some c0 =>
    constructor
    · rintro ⟨c, hmem, hct, hst⟩
      have hsome := (getCondition_eq_some_iff rs h t c).mpr ⟨hmem, hct⟩
      rw [hg] at hsome
      injection hsome with he
      show (c0.status == s) = true
      rw [he]
      simp [beq_iff_eq, hst]
    · intro hbeq
      have hbeq' : (c0.status == s) = true := hbeq
      obtain ⟨hmem, hct⟩ := (getCondition_eq_some_iff rs h t c0).mp hg
      exact ⟨c0, hmem, hct, by simpa using hbeq'⟩

/-- C5: `IsRoutable()` returns true iff either a "Ready" condition with status
"True" is present, or both a "Ready" condition with status "False" and an
"Active" condition with status "False" are present (for a status whose
condition types are unique, the ConditionSet invariant). -/
theorem isRoutable_characterization (rs : RevisionStatus) (h : uniqueTypes rs) :
    isRoutable rs = true ↔
      ((∃ c, c ∈ rs.conditions ∧ c.ctype = revisionConditionReady ∧
          c.status = conditionTrue) ∨
       ((∃ c, c ∈ rs.conditions ∧ c.ctype = revisionConditionReady ∧
           c.status = conditionFalse) ∧
        (∃ c, c ∈ rs.conditions ∧ c.ctype = revisionConditionActive ∧
           c.status = conditionFalse))) := by
  have e1 := exists_cond_iff rs h revisionConditionReady conditionTrue
  have e2 := exists_cond_iff rs h revisionConditionReady conditionFalse
  have e3 := exists_cond_iff rs h revisionConditionActive conditionFalse
  have hready : isReady rs = condHasStatus rs revisionConditionReady conditionTrue := rfl
  unfold isRoutable
  rw [Bool.or_eq_true, Bool.and_eq_true, hready, ← e1, ← e2, ← e3]

/-- Witness for C5 at the routable Reserve-style status Ready=False,
Active=False of `TestIsRoutable`. -/
def readyFalseActiveFalseState : RevisionStatus :=
  { conditions := [{ ctype := revisionConditionReady, status := conditionFalse,
                     reason := "", message := "", lastTransitionTime := 0 },
                   { ctype := revisionConditionActive, status := conditionFalse,
                     reason := "", message := "", lastTransitionTime := 0 }] }

theorem isRoutable_characterization_witness :
    isRoutable readyFalseActiveFalseState = true := by
  have hu : uniqueTypes readyFalseActiveFalseState := by
    unfold uniqueTypes readyFalseActiveFalseState
    refine List.Pairwise.cons ?_ (List.pairwise_singleton _ _)
    intro b hb
    rcases List.mem_singleton.mp hb with h1
    subst h1
    decide
  refine (isRoutable_characterization readyFalseActiveFalseState hu).mpr (Or.inr ⟨?_, ?_⟩)
  · exact ⟨_, List.mem_cons_self _ _, rfl, rfl⟩
  · exact ⟨_, List.mem_cons_of_mem _ (List.mem_cons_self _ _), rfl, rfl⟩

/-- C8: `IsActive()` returns true iff there is no "Active" condition with
status "False" or "Unknown" — absence defaults to active, as does any other
status value (for a status whose condition types are unique). -/
theorem isActive_characterization (rs : RevisionStatus) (h : uniqueTypes rs) :
    isActive rs = true ↔
      ¬ ∃ c, c ∈ rs.conditions ∧ c.ctype = revisionConditionActive ∧
        (c.status = conditionFalse ∨ c.status = conditionUnknown) := by
  unfold isActive
  cases hg : getCondition rs revisionConditionActive with
  | none =>
    constructor
    · intro _
      rintro ⟨c, hmem, hct, _⟩
      have hsome := (getCondition_eq_some_iff rs h _ c).mpr ⟨hmem, hct⟩
      rw [hg] at hsome
      exact Option.noConfusion hsome
    · intro _
      rfl
  | some c =>
    obtain ⟨hmem, hct⟩ := (getCondition_eq_some_iff rs h _ c).mp hg
    show (!(c.status == conditionFalse || c.status == conditionUnknown)) = true ↔ _
    constructor
    · intro hb
      simp only [Bool.not_eq_true', Bool.or_eq_false_iff, beq_eq_false_iff_ne] at hb
      rintro ⟨c', hmem', hct', hst'⟩
      have hsome := (getCondition_eq_some_iff rs h _ c').mpr ⟨hmem', hct'⟩
      rw [hg] at hsome
      injection hsome with he
      subst he
      rcases hst' with h1 | h1
      · exact hb.1 h1
      · exact hb.2 h1
    · intro hno
      have h1 : c.status ≠ conditionFalse := fun he => hno ⟨c, hmem, hct, Or.inl he⟩
      have h2 : c.status ≠ conditionUnknown := fun he => hno ⟨c, hmem, hct, Or.inr he⟩
      simp [h1, h2]

/-- Witness for C8 at a status whose only condition is Active=True. -/
def activeTrueState : RevisionStatus :=
  { conditions := [{ ctype := revisionConditionActive, status := conditionTrue,
                     reason := "", message := "", lastTransitionTime := 0 }] }

theorem isActive_characterization_witness : isActive activeTrueState = true := by
  have hu : uniqueTypes activeTrueState := by
    unfold uniqueTypes activeTrueState
    exact List.pairwise_singleton _ _
  refine (isActive_characterization activeTrueState hu).mpr ?_
  rintro ⟨c, hmem, _, hst⟩
  rcases List.mem_singleton.mp hmem with h1
  subst h1
  rcases hst with h1 | h1 <;> exact absurd h1 (by decide)

/-- C6 (amended): `InitializeConditions` and `InitializeBuildCondition` are
idempotent and additive-only — every existing condition is preserved with all
its fields, and only missing types from the fixed seeded sets (for
`InitializeConditions`: "ResourcesAvailable", "ContainerHealthy", "Active" and
"Ready"; for `InitializeBuildCondition`: "BuildSucceeded") are added, each with
status "Unknown" and empty reason/message.  The unamended claim says only
missing *dependent* types are added; the counterexample shows the
non-dependent "Active" condition is seeded too. -/
theorem initConditions_additive (rs : RevisionStatus) (now : Nat) :
    (∀ t c, getCondition rs t = some c →
        getCondition (initConditions rs now) t = some c ∧
        getCondition (initBuildCondition rs now) t = some c) ∧
    (∀ t, getCondition rs t = none →
        t ∈ [revisionConditionResourcesAvailable, revisionConditionContainerHealthy,
             revisionConditionActive, revisionConditionReady] →
        getCondition (initConditions rs now) t =
          some { ctype := t, status := conditionUnknown, reason := "", message := "",
                 lastTransitionTime := now }) ∧
    (∀ t, getCondition rs t = none →
        t ∉ [revisionConditionResourcesAvailable, revisionConditionContainerHealthy,
             revisionConditionActive, revisionConditionReady] →
        getCondition (initConditions rs now) t = none) ∧
    (getCondition rs revisionConditionBuildSucceeded = none →
        getCondition (initBuildCondition rs now) revisionConditionBuildSucceeded =
          some { ctype := revisionConditionBuildSucceeded, status := conditionUnknown,
                 reason := "", message := "", lastTransitionTime := now }) ∧
    (∀ t, getCondition rs t = none → t ≠ revisionConditionBuildSucceeded →
        getCondition (initBuildCondition rs now) t = none) := by
  refine ⟨?_, ?_, ?_, ?_, ?_⟩
  · intro t c h
    constructor
    · exact getCondition_seedIfAbsent_of_some _ _ _
        (getCondition_seedIfAbsent_of_some _ _ _
          (getCondition_seedIfAbsent_of_some _ _ _
            (getCondition_seedIfAbsent_of_some _ _ _ h)))
    · exact getCondition_seedIfAbsent_of_some _ _ _ h
  · intro t h hmem
    simp only [List.mem_cons, List.not_mem_nil, or_false] at hmem
    unfold initConditions
    rcases hmem with h1 | h1 | h1 | h1 <;> subst h1
    · exact getCondition_seedIfAbsent_of_some _ _ _
        (getCondition_seedIfAbsent_of_some _ _ _
          (getCondition_seedIfAbsent_of_some _ _ _
            (getCondition_seedIfAbsent_none rs _ now h)))
    · have s1 : getCondition
          (seedIfAbsent rs revisionConditionResourcesAvailable now)
          revisionConditionContainerHealthy = none := by
        rw [getCondition_seedIfAbsent_other _ _ _ (by decide)]
        exact h
      exact getCondition_seedIfAbsent_of_some _ _ _
        (getCondition_seedIfAbsent_of_some _ _ _
          (getCondition_seedIfAbsent_none _ _ now s1))
    · have s1 : getCondition
          (seedIfAbsent (seedIfAbsent rs revisionConditionResourcesAvailable now)
            revisionConditionContainerHealthy now)
          revisionConditionActive = none := by
        rw [getCondition_seedIfAbsent_other _ _ _ (by decide),
            getCondition_seedIfAbsent_other _ _ _ (by decide)]
        exact h
      exact getCondition_seedIfAbsent_of_some _ _ _
        (getCondition_seedIfAbsent_none _ _ now s1)
    · have s1 : getCondition
          (seedIfAbsent
            (seedIfAbsent (seedIfAbsent rs revisionConditionResourcesAvailable now)
              revisionConditionContainerHealthy now)
            revisionConditionActive now)
          revisionConditionReady = none := by
        rw [getCondition_seedIfAbsent_other _ _ _ (by decide),
            getCondition_seedIfAbsent_other _ _ _ (by decide),
            getCondition_seedIfAbsent_other _ _ _ (by decide)]
        exact h
      exact getCondition_seedIfAbsent_none _ _ now s1
  · intro t h hmem
    simp only [List.mem_cons, List.not_mem_nil, or_false, not_or] at hmem
    unfold initConditions
    rw [getCondition_seedIfAbsent_other _ _ _ hmem.2.2.2,
        getCondition_seedIfAbsent_other _ _ _ hmem.2.2.1,
        getCondition_seedIfAbsent_other _ _ _ hmem.2.1,
        getCondition_seedIfAbsent_other _ _ _ hmem.1]
    exact h
  · intro h
    unfold initBuildCondition
    exact getCondition_seedIfAbsent_none rs _ now h
  · intro t h ht
    unfold initBuildCondition
    rw [getCondition_seedIfAbsent_other _ _ _ ht]
    exact h

/-- A status holding a single unrelated condition "Foo", used to exercise the
initialization operations. -/
def fooStatus : RevisionStatus :=
  { conditions := [{ ctype := "Foo", status := conditionTrue, reason := "",
                     message := "", lastTransitionTime := 0 }] }

theorem initConditions_additive_witness :
    getCondition (initConditions fooStatus 7) "Foo" =
      some { ctype := "Foo", status := conditionTrue, reason := "", message := "",
             lastTransitionTime := 0 } ∧
    getCondition (initBuildCondition fooStatus 7) revisionConditionBuildSucceeded =
      some { ctype := revisionConditionBuildSucceeded, status := conditionUnknown,
             reason := "", message := "", lastTransitionTime := 7 } :=
  ⟨((initConditions_additive fooStatus 7).1 "Foo" _ rfl).1,
   (initConditions_additive fooStatus 7).2.2.2.1 rfl⟩

/-- C6 counterexample: on a status lacking an "Active" condition,
`InitializeConditions` adds one — "Active" is not a dependent condition type,
so the operation does not add *only* missing dependent condition types as the
claim states. -/
theorem initConditions_adds_active :
    getCondition fooStatus revisionConditionActive = none ∧
    getCondition (initConditions fooStatus 7) revisionConditionActive =
      some { ctype := revisionConditionActive, status := conditionUnknown,
             reason := "", message := "", lastTransitionTime := 7 } := ⟨rfl, rfl⟩

lemma bs_ne_ready : revisionConditionBuildSucceeded ≠ revisionConditionReady := by decide

lemma getCondition_recompute_set (rs : RevisionStatus) (nc : RevisionCondition)
    (now : Nat) (h : nc.ctype ≠ revisionConditionReady) :
    ∃ c, getCondition (recomputeReady (setCondition rs (some nc) now) now) nc.ctype =
        some c ∧ c.status = nc.status ∧ c.reason = nc.reason ∧ c.message = nc.message := by
  rw [getCondition_recomputeReady_other _ _ _ h]
  exact ⟨_, getCondition_setCondition_self rs nc now, rfl, rfl, rfl⟩

/-- C7: `PropagateBuildStatus` maps the external build status onto the local
"BuildSucceeded" condition: no external "Succeeded" condition — no change at
all; external Unknown — local "BuildSucceeded" becomes Unknown with the
external reason (defaulting to "Building" when the external reason is empty)
and message; external True — local "BuildSucceeded" becomes True with cleared
reason/message; external False — local "BuildSucceeded" becomes False with
reason and message copied verbatim; any other external status — no change. -/
theorem propagateBuildStatus_mapping (rs : RevisionStatus) (bs : BuildStatus) (now : Nat) :
    (buildGetCondition bs buildSucceededType = none →
      propagateBuildStatus rs bs now = rs) ∧
    (∀ bc, buildGetCondition bs buildSucceededType = some bc →
      ((bc.status = conditionUnknown →
        ∃ c, getCondition (propagateBuildStatus rs bs now)
            revisionConditionBuildSucceeded = some c ∧
          c.status = conditionUnknown ∧
          c.reason = (if bc.reason = "" then "Building" else bc.reason) ∧
          c.message = bc.message) ∧
       (bc.status = conditionTrue →
        ∃ c, getCondition (propagateBuildStatus rs bs now)
            revisionConditionBuildSucceeded = some c ∧
          c.status = conditionTrue ∧ c.reason = "" ∧ c.message = "") ∧
       (bc.status = conditionFalse →
        ∃ c, getCondition (propagateBuildStatus rs bs now)
            revisionConditionBuildSucceeded = some c ∧
          c.status = conditionFalse ∧ c.reason = bc.reason ∧
          c.message = bc.message) ∧
       (bc.status ≠ conditionUnknown → bc.status ≠ conditionTrue →
        bc.status ≠ conditionFalse → propagateBuildStatus rs bs now = rs))) := by
  constructor
  · intro h
    unfold propagateBuildStatus
    rw [h]
  · intro bc hbc
    refine ⟨?_, ?_, ?_, ?_⟩
    · intro h1
      have hb1 : (bc.status == conditionUnknown) = true := by simp [beq_iff_eq, h1]
      have hprop : propagateBuildStatus rs bs now =
          recomputeReady (setCondition rs (some
            { ctype := revisionConditionBuildSucceeded, status := conditionUnknown,
              reason := if (bc.reason == "") = true then "Building" else bc.reason,
              message := bc.message, lastTransitionTime := 0 }) now) now := by
        unfold propagateBuildStatus
        rw [hbc]
        simp [hb1]
      rw [hprop]
      obtain ⟨c, hc, hs, hr, hm⟩ := getCondition_recompute_set rs
        { ctype := revisionConditionBuildSucceeded, status := conditionUnknown,
          reason := if (bc.reason == "") = true then "Building" else bc.reason,
          message := bc.message, lastTransitionTime := 0 } now bs_ne_ready
      refine ⟨c, hc, hs, ?_, hm⟩
      rw [hr]
      by_cases hbr : bc.reason = ""
      · simp [hbr]
      · have hbr' : (bc.reason == "") = false := by simp [hbr]
        simp [hbr', hbr]
    · intro h1
      have hb1 : (bc.status == conditionUnknown) = false := by
        rw [h1]
        decide
      have hb2 : (bc.status == conditionTrue) = true := by simp [beq_iff_eq, h1]
      have hprop : propagateBuildStatus rs bs now =
          recomputeReady (setCondition rs (some
            { ctype := revisionConditionBuildSucceeded, status := conditionTrue,
              reason := "", message := "", lastTransitionTime := 0 }) now) now := by
        unfold propagateBuildStatus
        rw [hbc]
        simp [hb1, hb2]
      rw [hprop]
      exact getCondition_recompute_set rs _ now bs_ne_ready
    · intro h1
      have hb1 : (bc.status == conditionUnknown) = false := by
        rw [h1]
        decide
      have hb2 : (bc.status == conditionTrue) = false := by
        rw [h1]
        decide
      have hb3 : (bc.status == conditionFalse) = true := by simp [beq_iff_eq, h1]
      have hprop : propagateBuildStatus rs bs now =
          recomputeReady (setCondition rs (some
            { ctype := revisionConditionBuildSucceeded, status := conditionFalse,
              reason := bc.reason, message := bc.message,
              lastTransitionTime := 0 }) now) now := by
        unfold propagateBuildStatus
        rw [hbc]
        simp [hb1, hb2, hb3]
      rw [hprop]
      exact getCondition_recompute_set rs _ now bs_ne_ready
    · intro h1 h2 h3
      have hb1 : (bc.status == conditionUnknown) = false := by
        simp [beq_iff_eq]
        exact h1
      have hb2 : (bc.status == conditionTrue) = false := by
        simp [beq_iff_eq]
        exact h2
      have hb3 : (bc.status == conditionFalse) = false := by
        simp [beq_iff_eq]
        exact h3
      unfold propagateBuildStatus
      rw [hbc]
      simp [hb1, hb2, hb3]

/-- An externally observed failed build, as in
`TestTypicalFlowWithBuildFailure`. -/
def buildFailureStatus : BuildStatus :=
  { conditions := [{ ctype := "Succeeded", status := conditionFalse,
                     reason := "this is the reason",
                     message := "and this the message" }] }

theorem propagateBuildStatus_mapping_witness :
    ∃ c, getCondition (propagateBuildStatus (initialState true 0) buildFailureStatus 5)
        revisionConditionBuildSucceeded = some c ∧
      c.status = conditionFalse ∧ c.reason = "this is the reason" ∧
      c.message = "and this the message" :=
  ((propagateBuildStatus_mapping (initialState true 0) buildFailureStatus 5).2
    { ctype := "Succeeded", status := conditionFalse, reason := "this is the reason",
      message := "and this the message" } rfl).2.2.1 rfl

end KnativeRevision
